import Mathlib

/-!
Verification development for the exercise-checking core of the
english-tutor-bot repository (src/english_bot.py).

The Python functions relevant to the claims are shallowly embedded as
executable Lean definitions.  Python strings are Lean `String`s (ASCII
range; the program only manipulates ASCII content in the checked paths),
Python `None`/exception outcomes are `Option`, Python floats that are only
compared against the literal thresholds 0.8 / 0.7 / 1.0 are replaced by
the equivalent exact rational comparisons on natural numbers (the
quotients involved have denominators far too small for double rounding to
disagree with the exact comparison).
-/

namespace EnglishBot

/-- Python whitespace characters (`str.strip()` / `str.split()` / regex
`\s` for ASCII text): space, tab, newline, carriage return, vertical tab,
form feed. -/
def isPySpace (c : Char) : Bool :=
  c = ' ' || c = Char.ofNat 9 || c = Char.ofNat 10 || c = Char.ofNat 13 ||
  c = Char.ofNat 11 || c = Char.ofNat 12

/-- Model of Python `str.strip()` on a character list. -/
def pyStripList (l : List Char) : List Char :=
  ((l.dropWhile isPySpace).reverse.dropWhile isPySpace).reverse

/-- Model of Python `str.strip()`. -/
def pyStrip (s : String) : String := String.mk (pyStripList s.toList)

/-- Model of Python `str.lower()` (ASCII). -/
def pyLower (s : String) : String := String.mk (s.toList.map Char.toLower)

/-- Helper for `pySplitWs`: accumulate the current word while splitting on
whitespace runs. -/
def splitWsAux : List Char → List Char → List String
  | [], acc => if acc.isEmpty then [] else [String.mk acc.reverse]
  | c :: cs, acc =>
    if isPySpace c then
      if acc.isEmpty then splitWsAux cs [] else String.mk acc.reverse :: splitWsAux cs []
    else splitWsAux cs (c :: acc)

/-- Model of Python `str.split()` with no arguments: split on runs of
whitespace, never producing empty tokens. -/
def pySplitWs (s : String) : List String := splitWsAux s.toList []

/-- Helper for `pySplitComma`. -/
def splitCommaAux : List Char → List Char → List String
  | [], acc => [String.mk acc.reverse]
  | c :: cs, acc =>
    if c = ',' then String.mk acc.reverse :: splitCommaAux cs []
    else splitCommaAux cs (c :: acc)

/-- Model of Python `str.split(',')`: split at every comma, keeping empty
tokens (so the result always has one more element than there are commas). -/
def pySplitComma (s : String) : List String := splitCommaAux s.toList []

/-! ## difflib.SequenceMatcher

Model of `difflib.SequenceMatcher(None, a, b)` for short strings
(`len(b) < 200`, so the autojunk popularity heuristic is off and the junk
set is empty).  `find_longest_match` is the dictionary-based scan of
difflib with its exact tie-breaking (first maximal block in ascending
`i`, then ascending `j`), followed by the two junk-adjacent extension
loops (with an empty junk set the second, junk-only pair of loops never
fires and is omitted). -/

/-- One candidate block found by the inner loop of `find_longest_match`. -/
structure MatchBlock where
  besti : Nat
  bestj : Nat
  bestsize : Nat
  deriving DecidableEq

/-- Positions `j` with `blo ≤ j < bhi` and `b[j] = c`, ascending: the
model of iterating `b2j[c]` while skipping `j < blo` and breaking at
`j ≥ bhi`. -/
def positionsOf (b : List Char) (c : Char) (blo bhi : Nat) : List Nat :=
  (List.range b.length).filter
    (fun j => decide (blo ≤ j) && decide (j < bhi) && (b.getD j (Char.ofNat 0) == c))

/-- Inner loop body of `find_longest_match`: for the current `i`, process
one `j` with `b[j] = a[i]`.  `j2len` is the dictionary from the previous
`i` iteration; the accumulator carries the new dictionary (as an
association list) and the best block so far.  `j2len.get(j-1, 0)` with
`j = 0` looks up key `-1`, which is never present, hence the `j = 0`
guard. -/
def flmInnerStep (i : Nat) (j2len : List (Nat × Nat))
    (acc : List (Nat × Nat) × MatchBlock) (j : Nat) :
    List (Nat × Nat) × MatchBlock :=
  let k := if j = 0 then 1 else ((j2len.lookup (j - 1)).getD 0) + 1
  let st := acc.2
  if k > st.bestsize then ((j, k) :: acc.1, ⟨i + 1 - k, j + 1 - k, k⟩)
  else ((j, k) :: acc.1, st)

/-- Outer loop body of `find_longest_match`: one `i` iteration.  The
accumulator carries the `j2len` dictionary and the best block. -/
def flmOuterStep (a b : List Char) (blo bhi : Nat)
    (acc : List (Nat × Nat) × MatchBlock) (i : Nat) :
    List (Nat × Nat) × MatchBlock :=
  let js := positionsOf b (a.getD i (Char.ofNat 0)) blo bhi
  js.foldl (flmInnerStep i acc.1) ([], acc.2)

/-- The dictionary scan of `find_longest_match` over `i ∈ [alo, ahi)`. -/
def flmCore (a b : List Char) (alo ahi blo bhi : Nat) : MatchBlock :=
  ((List.range' alo (ahi - alo)).foldl (flmOuterStep a b blo bhi) ([], ⟨alo, blo, 0⟩)).2

/-- Leftward extension loop of `find_longest_match` (empty junk set):
count how far the block extends left while adjacent characters match.
The first argument is fuel, instantiated with `besti`, which bounds the
number of possible left steps. -/
def flmExtendLeft (a b : List Char) (alo blo : Nat) :
    Nat → Nat → Nat → Nat
  | 0, _, _ => 0
  | n + 1, besti, bestj =>
    if decide (besti > alo) && decide (bestj > blo) &&
       (a.getD (besti - 1) (Char.ofNat 0) == b.getD (bestj - 1) (Char.ofNat 0)) then
      flmExtendLeft a b alo blo n (besti - 1) (bestj - 1) + 1
    else 0

/-- Rightward extension loop of `find_longest_match` (empty junk set). -/
def flmExtendRight (a b : List Char) (ahi bhi : Nat) :
    Nat → Nat → Nat → Nat
  | 0, _, _ => 0
  | n + 1, i, j =>
    if decide (i < ahi) && decide (j < bhi) &&
       (a.getD i (Char.ofNat 0) == b.getD j (Char.ofNat 0)) then
      flmExtendRight a b ahi bhi n (i + 1) (j + 1) + 1
    else 0

/-- `find_longest_match(alo, ahi, blo, bhi)` with an empty junk set. -/
def findLongestMatch (a b : List Char) (alo ahi blo bhi : Nat) : MatchBlock :=
  let m := flmCore a b alo ahi blo bhi
  let l := flmExtendLeft a b alo blo m.besti m.besti m.bestj
  let m2 : MatchBlock := ⟨m.besti - l, m.bestj - l, m.bestsize + l⟩
  let r := flmExtendRight a b ahi bhi ahi (m2.besti + m2.bestsize) (m2.bestj + m2.bestsize)
  ⟨m2.besti, m2.bestj, m2.bestsize + r⟩

/-- Total number of matched characters over all matching blocks: the
recursive decomposition performed by `get_matching_blocks`.  The first
argument is fuel; every recursive call strictly shrinks the `a` range, so
`a.length + 1` steps always suffice. -/
def matchingTotal (a b : List Char) : Nat → Nat → Nat → Nat → Nat → Nat
  | 0, _, _, _, _ => 0
  | n + 1, alo, ahi, blo, bhi =>
    let m := findLongestMatch a b alo ahi blo bhi
    if m.bestsize = 0 then 0
    else
      matchingTotal a b n alo m.besti blo m.bestj + m.bestsize +
      matchingTotal a b n (m.besti + m.bestsize) ahi (m.bestj + m.bestsize) bhi

/-- `sum(block.size for block in SequenceMatcher(None, a, b).get_matching_blocks())`. -/
def sequenceMatches (a b : List Char) : Nat :=
  matchingTotal a b (a.length + 1) 0 a.length 0 b.length

/-- Model of `difflib.SequenceMatcher(None, a, b).ratio() > 0.8`.  The
ratio is `2*M / (len(a) + len(b))` (and `1.0` for two empty strings, per
`_calculate_ratio`); comparing that float against the literal `0.8` is
equivalent to the exact comparison `10*M > 4*(len(a)+len(b))` for the
short strings this program produces. -/
def ratioGtPoint8 (a b : String) : Bool :=
  let t := a.length + b.length
  if t = 0 then true
  else 10 * sequenceMatches a.toList b.toList > 4 * t

/-! ## Answer checkers

The checkers return `(isCorrect, feedback)`.  The user-facing feedback
message strings of the Python code are abstracted into the structured
`Feedback` type below; each constructor corresponds to exactly one
message family of the source, carrying the data interpolated into it. -/

/-- Structured model of the feedback messages produced by the checkers. -/
inductive Feedback where
  /-- "Please provide your answers." / "Please provide your answer." /
  "Please write a sentence." / "Please write your paragraph." -- the
  empty-input resubmission prompts. -/
  | providePrompt
  /-- "Incorrect number of answers. Expected {e}, but got {g}." -/
  | wrongCount (expected got : Nat)
  /-- "Excellent! All answers are correct!" -/
  | allCorrect
  /-- "Good! {c} out of {t} correct." (accuracy at least 0.7) -/
  | goodScore (correct total : Nat)
  /-- "Needs practice! {c} out of {t} correct." -/
  | needsPractice (correct total : Nat)
  /-- "Correct! You understood the text well." -/
  | comprehensionCorrect
  /-- "Answer is not quite accurate. Try rereading the text." -/
  | comprehensionWrong
  /-- "Excellent! Correct sentence." plus appended grammar feedback. -/
  | sentenceCorrect (grammar : String)
  /-- "Missing key words: ..." listing the missing required words, plus
  appended grammar feedback.  The Python code renders the set of missing
  words in unspecified set-iteration order; here they are listed in
  required-word order. -/
  | missingWords (ws : List String) (grammar : String)
  /-- "Pronunciation practice completed! Keep practicing!" -/
  | pronunciationDone
  /-- "Please practice pronouncing the words and type done when finished." -/
  | pronunciationKeep
  /-- "Writing submitted!" plus length/structure/grammar feedback. -/
  | writingSubmitted (wordCount sentenceCount : Nat) (grammar : String)
  /-- "Please complete the writing exercise first before navigating." -/
  | navigationRejected
  /-- "Exercise generation is currently unavailable. ..." -/
  | unavailableMsg
  deriving DecidableEq

/-- Embedding of `check_gap_filling_answer(user_answer, correct_answers)`.
Comparisons of the float `accuracy = correct_count / len(correct_answers)`
against `1` and `0.7` are replaced by the equivalent exact comparisons on
naturals. -/
def check_gap_filling_answer (user_answer : String) (correct_answers : List String) :
    Bool × Feedback :=
  if pyStrip user_answer = "" then (false, .providePrompt)
  else
    let user_answers := (pySplitComma user_answer).map (fun a => pyLower (pyStrip a))
    let correct := correct_answers.map (fun a => pyLower (pyStrip a))
    if user_answers.length ≠ correct.length then
      (false, .wrongCount correct.length user_answers.length)
    else
      let correct_count := (user_answers.zip correct).countP (fun p => ratioGtPoint8 p.1 p.2)
      if correct_count = correct.length then (true, .allCorrect)
      else if 10 * correct_count ≥ 7 * correct.length then
        (false, .goodScore correct_count correct.length)
      else (false, .needsPractice correct_count correct.length)

/-- Model of the Python substring test `needle in hay`. -/
def listContainsSub : List Char → List Char → Bool
  | needle, [] => needle.isEmpty
  | needle, c :: cs => needle.isPrefixOf (c :: cs) || listContainsSub needle cs

/-- Embedding of `check_comprehension_answer(user_answer, correct_answers)`:
case-insensitive substring containment of any expected answer. -/
def check_comprehension_answer (user_answer : String) (correct_answers : List String) :
    Bool × Feedback :=
  if pyStrip user_answer = "" then (false, .providePrompt)
  else
    let lower := pyLower user_answer
    if correct_answers.any (fun c => listContainsSub (pyLower c).toList lower.toList) then
      (true, .comprehensionCorrect)
    else (false, .comprehensionWrong)

/-- Model of Python `\w` for ASCII text: letters, digits, underscore. -/
def wordChar (c : Char) : Bool := c.isAlpha || c.isDigit || c = '_'

/-- Model of `re.sub(r'[^\w]', '', word.lower())`: lowercase the word and
keep only word characters. -/
def cleanWord (w : String) : String := String.mk ((pyLower w).toList.filter wordChar)

/-- Accumulate the cleaned words of length `> 2` into a duplicate-free
list: the model of the Python set built by `check_sentence_answer`
(membership is all that the verdict uses; the list keeps first-occurrence
order). -/
def wordSet (ws : List String) : List String :=
  ws.foldl
    (fun acc w =>
      let c := cleanWord w
      if c.length > 2 then (if acc.contains c then acc else acc ++ [c]) else acc)
    []

/-- The required-word set of `check_sentence_answer`: cleaned words of
length `> 2` of the first expected sentence. -/
def sentence_required_words (first : String) : List String := wordSet (pySplitWs first)

/-- The user-word set of `check_sentence_answer`. -/
def sentence_user_words (user_answer : String) : List String :=
  wordSet (pySplitWs (pyStrip user_answer))

/-- Embedding of `check_sentence_answer(user_answer, correct_sentences)`.
The external grammar model call `tutor.check_grammar` only contributes an
appended feedback string, passed here as the parameter
`grammar_feedback`; it never affects the verdict.  Result `none` models
the `IndexError` raised by `correct_sentences[0]` on an empty expected
list. -/
def check_sentence_answer (user_answer : String) (correct_sentences : List String)
    (grammar_feedback : String) : Option (Bool × Feedback) :=
  if pyStrip user_answer = "" then some (false, .providePrompt)
  else
    match correct_sentences with
    | [] => none
    | first :: _ =>
      let required := sentence_required_words first
      let user := sentence_user_words user_answer
      let missing := required.filter (fun w => !(user.contains w))
      if missing.isEmpty then some (true, .sentenceCorrect grammar_feedback)
      else some (false, .missingWords missing grammar_feedback)

/-- Embedding of `check_pronunciation_answer(user_answer, correct_answers)`. -/
def check_pronunciation_answer (user_answer : String) (_correct_answers : List String) :
    Bool × Feedback :=
  if pyLower (pyStrip user_answer) = "done" then (true, .pronunciationDone)
  else (false, .pronunciationKeep)

/-- The navigation command strings rejected by `check_writing_answer`. -/
def writing_navigation_commands : List String :=
  ["🎯 next exercise", "🎯 start lesson", "📊 my statistics",
   "📚 my progress", "🏠 main menu", "/start_lesson"]

/-- Characters ending a sentence in the structure heuristic
(`re.split(r'[.!?]+', text)`). -/
def isSentEnd (c : Char) : Bool := c = '.' || c = '!' || c = '?'

/-- Model of `re.split` on a one-character-class-plus pattern: split at
every maximal run of delimiter characters.  The Boolean flag records
whether the previous character belonged to a delimiter run. -/
def splitRunsAux (p : Char → Bool) : List Char → List Char → Bool → List String
  | [], acc, _ => [String.mk acc.reverse]
  | c :: cs, acc, inRun =>
    if p c then
      if inRun then splitRunsAux p cs [] true
      else String.mk acc.reverse :: splitRunsAux p cs [] true
    else splitRunsAux p cs (c :: acc) false

/-- `re.split(r'[.!?]+', text)`. -/
def splitSentences (text : String) : List String :=
  splitRunsAux isSentEnd text.toList [] false

/-- Embedding of `check_writing_answer(user_answer, correct_answers)`:
always "submitted" unless the input is empty or a navigation command.
The grammar model call only contributes the appended `grammar_feedback`
string. -/
def check_writing_answer (user_answer : String) (_correct_answers : List String)
    (grammar_feedback : String) : Bool × Feedback :=
  if pyStrip user_answer = "" then (false, .providePrompt)
  else if (writing_navigation_commands.map pyLower).contains (pyLower (pyStrip user_answer)) then
    (false, .navigationRejected)
  else
    let word_count := (pySplitWs user_answer).length
    let actual_sentences := ((splitSentences user_answer).map pyStrip).filter (fun s => s ≠ "")
    (true, .writingSubmitted word_count actual_sentences.length grammar_feedback)

/-- Embedding of `check_unavailable_answer`. -/
def check_unavailable_answer (_user_answer : String) (_correct_answers : List String) :
    Bool × Feedback :=
  (false, .unavailableMsg)

/-- The five checkable exercise subtypes of `EXERCISE_TEMPLATES`. -/
inductive ExKind where
  | text_comprehension
  | gap_filling
  | sentence_formation
  | paragraph_writing
  | pronunciation
  deriving DecidableEq

/-- The `check_answer` entry of the template for each subtype, with the
grammar-model feedback string abstracted as `gf`.  Checkers that cannot
raise are wrapped in `some`. -/
def checkerFor (k : ExKind) (gf : String) : String → List String → Option (Bool × Feedback) :=
  match k with
  | .text_comprehension => fun a e => some (check_comprehension_answer a e)
  | .gap_filling => fun a e => some (check_gap_filling_answer a e)
  | .sentence_formation => fun a e => check_sentence_answer a e gf
  | .paragraph_writing => fun a e => some (check_writing_answer a e gf)
  | .pronunciation => fun a e => some (check_pronunciation_answer a e)

/-- The per-user progress counters of `user_data[uid]['progress']`. -/
structure Progress where
  completed : Nat
  correct : Nat
  deriving DecidableEq

/-- The navigation button texts intercepted by `handle_exercise_answer`
before any checking. -/
def navigationButtons : List String :=
  ["🎯 Next Exercise", "🎯 Start Lesson", "💬 AI Conversation", "📊 My Statistics",
   "📚 My Progress", "🏠 Main Menu", "📚 Back to Lessons", "/start_lesson"]

/-- Embedding of the scoring path of `handle_exercise_answer`: run the
current exercise checker on the submitted text, then update the progress
counters — `completed` is incremented unconditionally, `correct` only on
a correct verdict.  `none` covers the two paths on which no scoring
happens: a navigation button press (routed to `handle_lesson_navigation`,
progress untouched) and a checker exception. -/
def handle_exercise_answer
    (checkFn : String → List String → Option (Bool × Feedback))
    (user_answer : String) (correct_answers : List String) (p : Progress) :
    Option (Progress × Bool × Feedback) :=
  if navigationButtons.contains user_answer then none
  else
    match checkFn user_answer correct_answers with
    | none => none
    | some (is_correct, feedback) =>
      some (⟨p.completed + 1, p.correct + (if is_correct then 1 else 0)⟩, is_correct, feedback)

/-! ## Exercise selector (generate_checkable_exercise) -/

/-- The `EXERCISE_TEMPLATES` dictionary: exercise type to the ordered list
of its template subtypes (the other template fields play no role in the
claims; the checker for each subtype is `checkerFor`). -/
def EXERCISE_TEMPLATES : List (String × List String) :=
  [("reading", ["text_comprehension", "gap_filling"]),
   ("writing", ["sentence_formation", "paragraph_writing"]),
   ("speaking", ["pronunciation"])]

/-- The flattened `(etype, subtype)` pairs in the iteration order of the
nested loop building `candidates`. -/
def templatePairs : List (String × String) :=
  EXERCISE_TEMPLATES.flatMap (fun p => p.2.map (fun t => (p.1, t)))

/-- The candidate list of `generate_checkable_exercise`: all template
pairs whose subtype differs from `last_subtype` (a fresh user has
`last_subtype = none`, and in Python `tmpl["type"] != None` is true). -/
def subtype_candidates (last_subtype : Option String) : List (String × String) :=
  templatePairs.filter
    (fun p => match last_subtype with | none => true | some s => !(p.2 == s))

/-- The subtype-choice step of `generate_checkable_exercise`:
`random.choice(candidates)` when the candidate list is non-empty,
otherwise the fallback of a random exercise type followed by a random
template inside it.  The random draws are modelled by the indices `idx`
(into the candidate list), `fi` and `fj` (the two fallback draws), each
reduced modulo the drawn-from list length. -/
def choose_exercise_template (last_subtype : Option String) (idx fi fj : Nat) :
    String × String :=
  let c := subtype_candidates last_subtype
  if c.isEmpty then
    let p := EXERCISE_TEMPLATES.getD (fi % EXERCISE_TEMPLATES.length) ("", [])
    (p.1, p.2.getD (fj % p.2.length) "")
  else c.getD (idx % c.length) ("", "")

/-- One entry of `user_data[uid]['recent_exercises']`: a
`(subtype, identifier)` pair. -/
abbrev RecentEntry := String × String

/-- The recent-exercise update of `generate_checkable_exercise`:
`recent.append(x)` followed by `recent = recent[-8:]` when the length
exceeds 8 (`l[-8:]` keeps the last 8 elements). -/
def step_recent (recent : List RecentEntry) (x : RecentEntry) : List RecentEntry :=
  let r := recent ++ [x]
  if r.length > 8 then r.drop (r.length - 8) else r

/-! ## LLM client (LLMClient) -/

/-- The mutable fields of `LLMClient` read by the claims:
`_model_loaded`, `_loading`, and whether `model` / `tokenizer` are
non-`None`. -/
structure LLMState where
  model_loaded : Bool
  loading : Bool
  has_model : Bool
  has_tokenizer : Bool
  deriving DecidableEq

/-- Embedding of `LLMClient.ensure_model_loaded`.  `load_ok` abstracts
whether `_load_model` would succeed.  Every `return` statement in the
Python function is bare and the function also falls off its end, so the
returned Python value — the second component, `none` standing for Python
`None` — is `None` on every control path. -/
def ensure_model_loaded (s : LLMState) (load_ok : Bool) : LLMState × Option Unit :=
  if s.model_loaded then (s, none)
  else if s.model_loaded then (s, none)
  else if s.loading then (s, none)
  else if load_ok then
    ({ s with model_loaded := true, loading := false, has_model := true, has_tokenizer := true },
      none)
  else ({ s with loading := false, has_model := false, has_tokenizer := false }, none)

/-- Embedding of `LLMClient.is_available`. -/
def is_available (s : LLMState) : Bool := s.model_loaded && s.has_model && s.has_tokenizer

/-- Embedding of `LLMClient.generate`.  `body` abstracts the stripped text
the model-invocation block would produce (`none` for a raised exception);
the guard `if not await self.ensure_model_loaded(): return None` tests
the truthiness of the value returned by `ensure_model_loaded`. -/
def generate (s : LLMState) (load_ok : Bool) (body : Option String) : Option String :=
  if !(ensure_model_loaded s load_ok).2.isSome then none
  else body

/-! ### JSON extraction and repair (LLMClient.generate_json) -/

/-- Model of Python `str.find(c)` scanning: index of the first occurrence. -/
def pyFindAux (c : Char) : List Char → Nat → Option Nat
  | [], _ => none
  | x :: xs, i => if x = c then some i else pyFindAux c xs (i + 1)

/-- Model of Python `str.find(c)`: first index, `-1` when absent. -/
def pyFind (s : String) (c : Char) : Int :=
  match pyFindAux c s.toList 0 with
  | some n => (n : Int)
  | none => -1

/-- Model of Python `str.rfind(c)`: last index, `-1` when absent. -/
def pyRfind (s : String) (c : Char) : Int :=
  match pyFindAux c s.toList.reverse 0 with
  | some n => ((s.toList.length - 1 - n : Nat) : Int)
  | none => -1

/-- Model of the Python slice `s[start:stop]` for `0 ≤ start, stop`. -/
def pySlice (s : String) (start stop : Nat) : String :=
  String.mk ((s.toList.drop start).take (stop - start))

/-- Match `\s*` then the character `close` at the head of the list,
returning the remainder: the deterministic residue of the regex
`,\s*close` after the comma (the greedy `\s*` cannot skip past `close`
because `close` is not whitespace). -/
def matchSpacesThen (close : Char) : List Char → Option (List Char)
  | [] => none
  | c :: cs => if c = close then some cs else if isPySpace c then matchSpacesThen close cs else none

/-- Model of `re.sub(r',\s*close', 'close', s)`: replace every
non-overlapping match left to right.  The first argument is fuel,
instantiated with the list length, which bounds the number of steps. -/
def subCommaCloseAux (close : Char) : Nat → List Char → List Char
  | 0, l => l
  | _ + 1, [] => []
  | n + 1, c :: cs =>
    if c = ',' then
      match matchSpacesThen close cs with
      | some rest => close :: subCommaCloseAux close n rest
      | none => c :: subCommaCloseAux close n cs
    else c :: subCommaCloseAux close n cs

/-- `re.sub(r',\s*close', 'close', s)` on strings. -/
def pyReSubCommaClose (close : Char) (s : String) : String :=
  String.mk (subCommaCloseAux close s.toList.length s.toList)

/-- The trailing-comma cleanup of `generate_json`: first
`re.sub(r',\s*}', '}', _)`, then `re.sub(r',\s*\]', ']', _)`. -/
def cleanupTrailingCommas (s : String) : String :=
  pyReSubCommaClose (Char.ofNat 93) (pyReSubCommaClose (Char.ofNat 125) s)

/-- The brace-extraction fallback of `generate_json`: `text.find('{')`,
`text.rfind('}')`, and on success the cleaned-up slice
`text[start:end+1]`; `none` when either brace is missing. -/
def extract_json_candidate (text : String) : Option String :=
  let start := pyFind text (Char.ofNat 123)
  let stop := pyRfind text (Char.ofNat 125)
  if start != -1 && stop != -1 then
    some (cleanupTrailingCommas (pySlice text start.toNat (stop.toNat + 1)))
  else none

/-- The parsing stage of `LLMClient.generate_json` applied to the raw
model output `text`: a strict parse attempt, then the brace-extraction
and cleanup retry, then `None`.  `loads` abstracts `json.loads`, with
`none` standing for a raised `JSONDecodeError`; both `except` blocks of
the source convert any failure into the `none` result. -/
def generate_json_from_text {α : Type} (loads : String → Option α) (text : String) : Option α :=
  match loads text with
  | some v => some v
  | none =>
    match extract_json_candidate text with
    | some jstr => loads jstr
    | none => none

/-- Embedding of `LLMClient.generate_json`: generate text, then parse it
(`if not text: return None` also rejects the empty string). -/
def generate_json {α : Type} (loads : String → Option α) (s : LLMState) (load_ok : Bool)
    (body : Option String) : Option α :=
  match generate s load_ok body with
  | none => none
  | some t => if t = "" then none else generate_json_from_text loads t

/-- Index of the first list element satisfying `p`, by structural
recursion: the specification-side formulation of "search for the first
occurrence", independent of the scanning-with-accumulator model
`pyFindAux` of Python `find`. -/
def firstIdxAux (p : Char → Bool) : List Char → Option Nat
  | [] => none
  | c :: cs => if p c then some 0 else (firstIdxAux p cs).map (· + 1)

/-- Specification-side restatement of the `generate_json` parsing policy,
written from the spec text: attempt a strict parse first; on failure
search for the first opening brace and the last closing brace (the first
closing brace of the reversed text), strip trailing commas in the
enclosed substring, and retry; on second failure (or when no braces are
found) return `None`. -/
def generate_json_spec {α : Type} (loads : String → Option α) (text : String) : Option α :=
  match loads text with
  | some v => some v
  | none =>
    match firstIdxAux (fun c => c == Char.ofNat 123) text.toList,
          firstIdxAux (fun c => c == Char.ofNat 125) text.toList.reverse with
    | some a, some rb =>
      let b := text.toList.length - 1 - rb
      loads (cleanupTrailingCommas (String.mk ((text.toList.drop a).take (b + 1 - a))))
    | _, _ => none

/-- The subtypes with a schema in `generate_exercise_via_llm`. -/
def schemaSubtypes : List String :=
  ["text_comprehension", "gap_filling", "sentence_formation", "paragraph_writing",
   "pronunciation"]

/-- Embedding of `generate_exercise_via_llm`: give up unless the client
reports itself available and the subtype has a schema, then request JSON
and validate it (`validate` abstracts the per-subtype field checks on the
returned dictionary). -/
def generate_exercise_via_llm {α : Type} (loads : String → Option α) (validate : α → Bool)
    (s : LLMState) (load_ok : Bool) (body : Option String) (subtype : String) : Option α :=
  if !(is_available s) then none
  else if !(schemaSubtypes.contains subtype) then none
  else
    match generate_json loads s load_ok body with
    | none => none
    | some d => if validate d then some d else none

/-! ## Offline content pools -/

/-- One gap-filling pool entry. -/
structure GapExercise where
  text : String
  answers : List String
  deriving DecidableEq

/-- The `A1` bank of `generate_gap_filling`. -/
def gap_filling_bank_A1 : List GapExercise :=
  [⟨"I _____ breakfast at 8 a.m. My sister _____ tea, but I _____ coffee.",
    ["have", "drinks", "prefer"]⟩,
   ⟨"We _____ to the park on Sundays. My dad _____ the guitar and we _____ together.",
    ["go", "plays", "sing"]⟩]

/-- The `A2` bank of `generate_gap_filling`. -/
def gap_filling_bank_A2 : List GapExercise :=
  [⟨"Last weekend we _____ a picnic. The weather _____ sunny, so we _____ a great time.",
    ["had", "was", "had"]⟩,
   ⟨"I _____ a new phone yesterday. It _____ very fast and I _____ it already.",
    ["bought", "is", "like"]⟩]

/-- The `B1` bank of `generate_gap_filling` (also the fallback bank). -/
def gap_filling_bank_B1 : List GapExercise :=
  [⟨"If I _____ earlier, I _____ caught the bus, but I _____ too late.",
    ["had left", "would have", "was"]⟩,
   ⟨"She _____ working here since 2020 and _____ many projects; now she _____ a team.",
    ["has been", "has completed", "leads"]⟩]

/-- The `B2` bank of `generate_gap_filling`. -/
def gap_filling_bank_B2 : List GapExercise :=
  [⟨"Despite _____ exhausted, they _____ to finish on time; the result _____ outstanding.",
    ["being", "managed", "was"]⟩,
   ⟨"Had I _____ your message, I _____ you back immediately, but my phone _____ off.",
    ["seen", "would have called", "was"]⟩]

/-- The `exercises` dictionary of `generate_gap_filling`. -/
def gap_filling_exercises : List (String × List GapExercise) :=
  [("A1", gap_filling_bank_A1), ("A2", gap_filling_bank_A2),
   ("B1", gap_filling_bank_B1), ("B2", gap_filling_bank_B2)]

/-- Embedding of `generate_gap_filling(topic, level)`.  The level key is
`level.split()[0]`; `none` models the `IndexError` that subscript raises
when the whitespace-split of `level` is empty.  `random.choice(bank)` is
modelled by the index `choice` reduced modulo the bank length. -/
def generate_gap_filling (level : String) (choice : Nat) : Option GapExercise :=
  match pySplitWs level with
  | [] => none
  | key :: _ =>
    let bank := (gap_filling_exercises.lookup key).getD gap_filling_bank_B1
    some (bank.getD (choice % bank.length) ⟨"", []⟩)

/-- One reading-comprehension pool entry. -/
structure ReadingExercise where
  text : String
  questions : String
  answers : List String
  deriving DecidableEq

/-- The `A1` bank of `generate_reading_comprehension`. -/
def reading_bank_A1 : List ReadingExercise :=
  [⟨"Anna has a small dog. She takes it for a walk every morning. After the walk, she eats breakfast and goes to work.",
    "When does Anna walk her dog?", ["in the morning", "every morning"]⟩,
   ⟨"Jake likes reading. He goes to the library on Saturdays. He often reads adventure books with his friends.",
    "Where does Jake go on Saturdays?", ["the library", "to the library"]⟩]

/-- The `A2` bank of `generate_reading_comprehension`. -/
def reading_bank_A2 : List ReadingExercise :=
  [⟨"Last month, Peter traveled to Spain. He visited Barcelona and Madrid. He enjoyed the local food and the warm weather.",
    "Which cities did Peter visit?", ["Barcelona and Madrid", "Madrid and Barcelona"]⟩,
   ⟨"Nora started a new hobby: photography. She practices on weekends in the park and shares her pictures online.",
    "When does Nora practice photography?", ["on weekends", "at weekends"]⟩]

/-- The `B1` bank of `generate_reading_comprehension` (also the fallback
bank). -/
def reading_bank_B1 : List ReadingExercise :=
  [⟨"Remote work has become more common. Many people save time by avoiding commuting. However, some miss the social aspect of the office.",
    "What is one advantage mentioned about remote work?",
    ["saving time", "no commuting", "avoiding commuting"]⟩,
   ⟨"Learning a language takes regular practice. Short, daily sessions are often more effective than long, rare ones.",
    "What is considered more effective for learning a language?",
    ["short daily sessions", "regular short practice"]⟩]

/-- The `B2` bank of `generate_reading_comprehension`. -/
def reading_bank_B2 : List ReadingExercise :=
  [⟨"Public transportation can reduce traffic congestion and pollution. Yet, it requires investment and careful planning to be efficient.",
    "What benefits can public transportation bring?",
    ["reduce congestion", "reduce pollution", "less traffic and pollution"]⟩,
   ⟨"Social media platforms influence public opinion. While they connect people, they also spread misinformation quickly.",
    "What is a risk mentioned about social media?",
    ["misinformation", "spreading misinformation"]⟩]

/-- The `texts` dictionary of `generate_reading_comprehension`. -/
def reading_exercises : List (String × List ReadingExercise) :=
  [("A1", reading_bank_A1), ("A2", reading_bank_A2),
   ("B1", reading_bank_B1), ("B2", reading_bank_B2)]

/-- Embedding of `generate_reading_comprehension(topic, level)`, with the
same level-key and random-choice modelling as `generate_gap_filling`. -/
def generate_reading_comprehension (level : String) (choice : Nat) : Option ReadingExercise :=
  match pySplitWs level with
  | [] => none
  | key :: _ =>
    let bank := (reading_exercises.lookup key).getD reading_bank_B1
    some (bank.getD (choice % bank.length) ⟨"", "", []⟩)

/-! ## Vocabulary harvesting (add_words_to_vocabulary) -/

/-- Word-character test at an index, out-of-range counting as non-word:
the basis of the regex word boundary `\b`. -/
def wordCharAt (s : List Char) (i : Nat) : Bool := wordChar (s.getD i (Char.ofNat 0))

/-- The regex word boundary `\b` holds at position `p` iff the
word-character status changes there (positions outside the string count
as non-word). -/
def boundaryAt (s : List Char) (p : Nat) : Bool :=
  (if p = 0 then false else wordCharAt s (p - 1)) != wordCharAt s p

/-- The character class `[a-zA-Z'-]` of the vocabulary token regex. -/
def innerTokChar (c : Char) : Bool := c.isAlpha || c = Char.ofNat 39 || c = '-'

/-- Length of the maximal `[a-zA-Z'-]` run at the head of the list: the
greedy extent of `[a-zA-Z'-]{3,}`. -/
def runLen : List Char → Nat
  | [] => 0
  | c :: cs => if innerTokChar c then runLen cs + 1 else 0

/-- Backtracking of the greedy `[a-zA-Z'-]{3,}` against the trailing
`\b`: the largest `k` between 3 and the maximal run length such that a
word boundary holds after `k` run characters (the token starts at `i`). -/
def bestRunK (s : List Char) (i : Nat) : Nat → Option Nat
  | 0 => none
  | k + 1 =>
    if decide (k + 1 ≥ 3) && boundaryAt s (i + 1 + (k + 1)) then some (k + 1)
    else bestRunK s i k

/-- Try the token regex `\b[a-zA-Z][a-zA-Z'-]{3,}\b` at position `i`,
returning the end position of the match. -/
def tokenMatchAt (s : List Char) (i : Nat) : Option Nat :=
  if boundaryAt s i && (s.getD i (Char.ofNat 0)).isAlpha then
    match bestRunK s i (runLen (s.drop (i + 1))) with
    | some k => some (i + 1 + k)
    | none => none
  else none

/-- The scan of `re.findall`: try the pattern at each position, emit the
match and resume at its end, else advance one position.  The fuel
argument (instantiated with `s.length + 1`) bounds the number of steps,
as every step advances the position. -/
def scanTokens (s : List Char) : Nat → Nat → List String
  | 0, _ => []
  | fuel + 1, pos =>
    if pos < s.length then
      match tokenMatchAt s pos with
      | some e => String.mk ((s.drop pos).take (e - pos)) :: scanTokens s fuel e
      | none => scanTokens s fuel (pos + 1)
    else []

/-- `re.findall(r"\b[a-zA-Z][a-zA-Z'-]{3,}\b", text.lower())`. -/
def vocabulary_tokens (text : String) : List String :=
  scanTokens (pyLower text).toList ((pyLower text).toList.length + 1) 0

/-- Drop leading apostrophes. -/
def stripAposLeft : List Char → List Char
  | [] => []
  | c :: cs => if c = Char.ofNat 39 then stripAposLeft cs else c :: cs

/-- Model of Python `word.strip(APOSTROPHE)`: drop apostrophes from both
ends. -/
def pyStripApos (s : String) : String :=
  String.mk ((stripAposLeft (stripAposLeft s.toList).reverse).reverse)

/-- The `common_words` stoplist of `add_words_to_vocabulary`, transcribed
in source order (the Python set literal contains a few repeated words;
repetition does not affect membership). -/
def common_words : List String :=
  ["this", "that", "with", "have", "they", "were", "been", "their", "said", "each", "which",
   "them", "many", "some", "time", "very", "when", "much", "new", "now", "old", "see", "him",
   "two", "more", "go", "no", "way", "could", "my", "than", "first", "water", "long", "little",
   "most", "after", "back", "other", "many", "where", "much", "take", "why", "help", "put",
   "years", "work", "part", "number", "right", "came", "same", "case", "while", "here", "might",
   "think", "show", "large", "again", "turn", "ask", "went", "men", "read", "need", "land",
   "different", "home", "move", "try", "kind", "hand", "picture", "again", "change", "off",
   "play", "spell", "air", "away", "animal", "house", "point", "page", "letter", "mother",
   "answer", "found", "study", "still", "learn", "should", "america", "world"]

/-- The word loop of `add_words_to_vocabulary`: normalize each token,
insert it into the vocabulary unless it is a stoplisted word or already
present, and record the genuinely new words in order.  The Python
vocabulary is a set; it is modelled as a duplicate-free list, with
membership the only operation used. -/
def add_words_aux (vocab new : List String) : List String → List String × List String
  | [] => (vocab, new)
  | w :: ws =>
    let normalized := pyStripApos w
    if !(common_words.contains normalized) && !(vocab.contains normalized) then
      add_words_aux (vocab ++ [normalized]) (new ++ [normalized]) ws
    else add_words_aux vocab new ws

/-- Embedding of `add_words_to_vocabulary(user_id, text)` on the user
vocabulary `vocab`: returns the updated vocabulary and the list of new
words that the Python function returns. -/
def add_words_to_vocabulary (vocab : List String) (text : String) :
    List String × List String :=
  add_words_aux vocab [] (vocabulary_tokens text)

/-- Specification-side restatement of the vocabulary harvest, written
from the spec text, to be compared with the embedding: each extracted
token is normalized and inserted into the vocabulary unless it is in the
fixed stoplist of common words or already present, and exactly the list
of genuinely new words added by the call is returned, in order. -/
def harvest_vocabulary_spec (vocab : List String) : List String → List String × List String
  | [] => (vocab, [])
  | t :: ts =>
    let n := pyStripApos t
    if n ∈ common_words ∨ n ∈ vocab then harvest_vocabulary_spec vocab ts
    else
      let r := harvest_vocabulary_spec (vocab ++ [n]) ts
      (r.1, n :: r.2)

/-! ## Helper lemmas -/

theorem getD_mod_mem {α : Type} (l : List α) (d : α) (n : Nat) (h : l ≠ []) :
    l.getD (n % l.length) d ∈ l := by
  have hlen : 0 < l.length := List.length_pos.mpr h
  have hlt : n % l.length < l.length := Nat.mod_lt _ hlen
  rw [List.getD_eq_getElem?_getD, List.getElem?_eq_getElem hlt]
  exact List.getElem_mem hlt

theorem step_recent_length_le (r : List RecentEntry) (x : RecentEntry) :
    (step_recent r x).length ≤ 8 := by
  unfold step_recent
  by_cases h : (r ++ [x]).length > 8
  · rw [if_pos h, List.length_drop]
    omega
  · rw [if_neg h]
    omega

theorem ensure_model_loaded_returns_none (s : LLMState) (load_ok : Bool) :
    (ensure_model_loaded s load_ok).2 = none := by
  unfold ensure_model_loaded
  repeat (first | rfl | split)

theorem generate_eq_none (s : LLMState) (load_ok : Bool) (body : Option String) :
    generate s load_ok body = none := by
  unfold generate
  rw [ensure_model_loaded_returns_none]
  rfl

/-! ## Claim theorems -/

/-- C3: for every user state (modelled by its `last_subtype` field) the
subtype chosen by the selection step of `generate_checkable_exercise` is
different from the last served subtype, whatever the random draws, since
the candidate set excludes it and the full-set fallback is unreachable
with the five distinct configured subtypes. -/
theorem selector_avoids_repeat_subtype :
    ∀ (last : String) (idx fi fj : Nat),
      (choose_exercise_template (some last) idx fi fj).2 ≠ last := by
  intro last idx fi fj
  have hne : subtype_candidates (some last) ≠ [] := by
    by_cases h : "text_comprehension" = last
    · apply List.ne_nil_of_mem (a := ("reading", "gap_filling"))
      apply List.mem_filter.mpr
      refine ⟨by decide, ?_⟩
      subst h
      decide
    · apply List.ne_nil_of_mem (a := ("reading", "text_comprehension"))
      apply List.mem_filter.mpr
      refine ⟨by decide, ?_⟩
      simpa using h
  have hmem : choose_exercise_template (some last) idx fi fj ∈ subtype_candidates (some last) := by
    unfold choose_exercise_template
    have hie : ¬((subtype_candidates (some last)).isEmpty = true) := by
      simpa [List.isEmpty_iff] using hne
    rw [if_neg hie]
    exact getD_mod_mem _ _ _ hne
  have := (List.mem_filter.mp hmem).2
  simpa using this

/-- C4: each recent-exercise update of `generate_checkable_exercise`
appends the fresh identifier as the last element, keeps a suffix of the
appended list (evicting only the oldest entries), and leaves at most 8
entries — hence after any positive number of selections the list length
is at most 8. -/
theorem recent_exercises_bounded :
    ∀ (recent : List RecentEntry) (x : RecentEntry),
      (step_recent recent x).length ≤ 8 ∧
      (step_recent recent x).getLast? = some x ∧
      (step_recent recent x).IsSuffix (recent ++ [x]) ∧
      ∀ (sels : List RecentEntry) (y : RecentEntry),
        ((sels ++ [y]).foldl step_recent recent).length ≤ 8 := by
  intro recent x
  refine ⟨step_recent_length_le recent x, ?_, ?_, ?_⟩
  · unfold step_recent
    by_cases h : (recent ++ [x]).length > 8
    · rw [if_pos h]
      have hlen : ((recent ++ [x]).drop ((recent ++ [x]).length - 8)).length = 8 := by
        rw [List.length_drop]
        omega
      have hnil : (recent ++ [x]).drop ((recent ++ [x]).length - 8) ≠ [] := by
        intro hcon
        rw [hcon] at hlen
        simp at hlen
      calc ((recent ++ [x]).drop ((recent ++ [x]).length - 8)).getLast?
          = ((recent ++ [x]).take ((recent ++ [x]).length - 8) ++
              (recent ++ [x]).drop ((recent ++ [x]).length - 8)).getLast? := by
            exact (List.getLast?_append_of_ne_nil _ hnil).symm
        _ = (recent ++ [x]).getLast? := by rw [List.take_append_drop]
        _ = some x := by simp
    · rw [if_neg h]
      simp
  · unfold step_recent
    by_cases h : (recent ++ [x]).length > 8
    · rw [if_pos h]
      exact List.drop_suffix _ _
    · rw [if_neg h]
  · intro sels y
    rw [List.foldl_append]
    exact step_recent_length_le _ _

/-- C10: `ensure_model_loaded` returns Python `None` on every control
path, so `LLMClient.generate` early-returns `None` for every prompt and
loading outcome; consequently `generate_json` and
`generate_exercise_via_llm` also return `None` for every input, and the
exercise selector always takes the offline static-pool branch. -/
theorem llm_generation_always_none :
    ∀ (s : LLMState) (load_ok : Bool) (body : Option String),
      generate s load_ok body = none ∧
      (∀ (α : Type) (loads : String → Option α),
        generate_json loads s load_ok body = none) ∧
      (∀ (α : Type) (loads : String → Option α) (validate : α → Bool) (subtype : String),
        generate_exercise_via_llm loads validate s load_ok body subtype = none) := by
  intro s load_ok body
  refine ⟨generate_eq_none s load_ok body, ?_, ?_⟩
  · intro α loads
    unfold generate_json
    rw [generate_eq_none]
  · intro α loads validate subtype
    have hj : generate_json loads s load_ok body = none := by
      unfold generate_json
      rw [generate_eq_none]
    unfold generate_exercise_via_llm
    rw [hj]
    split <;> simp

/-- C5 counterexample: checking `"haev, drinks, prefer"` against
`["have", "drinks", "prefer"]` does not return all-correct — the
SequenceMatcher similarity of `"haev"` and `"have"` is `2*3/8 = 0.75`,
which does not exceed `0.8`, so the claimed `isCorrect == true` is false
at this input. -/
theorem gap_filling_typo_counterexample :
    (check_gap_filling_answer "haev, drinks, prefer" ["have", "drinks", "prefer"]).1 = false ∧
    ratioGtPoint8 "haev" "have" = false := by decide

/-- C5 amended: with answer `"haev, drinks, prefer"` the checker finds
only 2 of 3 positions correct (the `"haev"`/`"have"` similarity is 0.75,
not above 0.8) and returns `isCorrect == false` with the needs-practice
tier, exactly as it does for `"xyz, drinks, prefer"`. -/
theorem gap_filling_typo_amended :
    check_gap_filling_answer "haev, drinks, prefer" ["have", "drinks", "prefer"] =
      (false, .needsPractice 2 3) ∧
    check_gap_filling_answer "xyz, drinks, prefer" ["have", "drinks", "prefer"] =
      (false, .needsPractice 2 3) ∧
    sequenceMatches "haev".toList "have".toList = 3 := by decide

/-- C2 counterexample: submitting the empty answer to the gap-filling
exercise from fresh progress counters yields `isCorrect == false` with
the resubmission prompt, but `handle_exercise_answer` still increments
`completed` from 0 to 1 — refuting the claim that such a submission does
not increment `completed`. -/
theorem empty_answer_completed_counterexample :
    handle_exercise_answer (checkerFor .gap_filling "") "" ["have"] ⟨0, 0⟩ =
      some (⟨1, 0⟩, false, .providePrompt) ∧
    ¬((handle_exercise_answer (checkerFor .gap_filling "") "" ["have"] ⟨0, 0⟩).map
        (fun r => r.1.completed) = some 0) := by decide

/-- C8 counterexample: with an empty or whitespace-only `level` string the
offline generators do not fall back to the B1 pool — `level.split()[0]`
raises `IndexError` (modelled by `none`), refuting the claim that the
static-pool draw never fails for every level string. -/
theorem offline_pool_empty_level_counterexample :
    generate_gap_filling "" 0 = none ∧
    generate_reading_comprehension "   " 0 = none := by decide

/-- C1: for a non-empty answer and non-empty expected list, the
gap-filling checker returns `isCorrect == false` whenever the number of
comma-split tokens differs from the expected count, and otherwise returns
`isCorrect == true` exactly when every trimmed lowercased pair has
similarity ratio above 0.8; in particular `"have, drinks, prefer"`
against `["have", "drinks", "prefer"]` is fully correct. -/
theorem gap_filling_checker_spec :
    ∀ (ans : String) (expected : List String),
      pyStrip ans ≠ "" → expected ≠ [] →
      ((pySplitComma ans).length ≠ expected.length →
        (check_gap_filling_answer ans expected).1 = false) ∧
      ((pySplitComma ans).length = expected.length →
        ((check_gap_filling_answer ans expected).1 = true ↔
          ∀ p ∈ ((pySplitComma ans).map (fun a => pyLower (pyStrip a))).zip
              (expected.map (fun a => pyLower (pyStrip a))),
            ratioGtPoint8 p.1 p.2 = true)) ∧
      (check_gap_filling_answer "have, drinks, prefer" ["have", "drinks", "prefer"]).1 = true := by
  intro ans expected hne _hexp
  refine ⟨?_, ?_, by decide⟩
  · intro hlen
    simp [check_gap_filling_answer, hne, hlen]
  · intro hlen
    have hziplen :
        (((pySplitComma ans).map (fun a => pyLower (pyStrip a))).zip
          (expected.map (fun a => pyLower (pyStrip a)))).length = expected.length := by
      simp [List.length_zip, hlen]
    by_cases hcnt :
        (((pySplitComma ans).map (fun a => pyLower (pyStrip a))).zip
          (expected.map (fun a => pyLower (pyStrip a)))).countP
            (fun p => ratioGtPoint8 p.1 p.2) = expected.length
    · have hall : ∀ p ∈ ((pySplitComma ans).map (fun a => pyLower (pyStrip a))).zip
          (expected.map (fun a => pyLower (pyStrip a))),
          ratioGtPoint8 p.1 p.2 = true := by
        apply List.countP_eq_length.mp
        rw [hziplen]
        exact hcnt
      simp [check_gap_filling_answer, hne, hlen, hcnt]
      intro a b hab
      exact hall (a, b) hab
    · have hnall : ¬(∀ p ∈ ((pySplitComma ans).map (fun a => pyLower (pyStrip a))).zip
          (expected.map (fun a => pyLower (pyStrip a))),
          ratioGtPoint8 p.1 p.2 = true) := by
        intro hall
        apply hcnt
        rw [← hziplen]
        exact List.countP_eq_length.mpr hall
      by_cases htier :
          7 * expected.length ≤
            10 * (((pySplitComma ans).map (fun a => pyLower (pyStrip a))).zip
              (expected.map (fun a => pyLower (pyStrip a)))).countP
                (fun p => ratioGtPoint8 p.1 p.2)
      · simp [check_gap_filling_answer, hne, hlen, hcnt, htier]
        push_neg at hnall
        obtain ⟨p, hp, hfalse⟩ := hnall
        exact ⟨p.1, p.2, hp, by simpa using hfalse⟩
      · simp [check_gap_filling_answer, hne, hlen, hcnt, htier]
        push_neg at hnall
        obtain ⟨p, hp, hfalse⟩ := hnall
        exact ⟨p.1, p.2, hp, by simpa using hfalse⟩

/-- C1 witness: the universal characterization instantiated at the
concrete worked example. -/
theorem gap_filling_checker_spec_witness :
    (check_gap_filling_answer "have, drinks, prefer" ["have", "drinks", "prefer"]).1 = true :=
  (gap_filling_checker_spec "have, drinks, prefer" ["have", "drinks", "prefer"]
    (by decide) (by decide)).2.2

/-- C2 amended: an empty or whitespace-only answer makes every checker
return `isCorrect == false` with a retry-style prompt, but
`handle_exercise_answer` still increments the `completed` counter for
that submission (it increments unconditionally after any checker run);
`correct` is left unchanged. -/
theorem empty_answer_rejected_but_counted :
    ∀ (k : ExKind) (gf ans : String) (expected : List String) (p : Progress),
      pyStrip ans = "" →
      ∃ fb, checkerFor k gf ans expected = some (false, fb) ∧
        handle_exercise_answer (checkerFor k gf) ans expected p =
          some (⟨p.completed + 1, p.correct⟩, false, fb) := by
  intro k gf ans expected p h
  have hnav : navigationButtons.contains ans = false := by
    by_contra hc
    rw [Bool.not_eq_false] at hc
    have hmem : ans ∈ navigationButtons := by simpa using hc
    simp only [navigationButtons, List.mem_cons, List.not_mem_nil, or_false] at hmem
    rcases hmem with h1 | h1 | h1 | h1 | h1 | h1 | h1 | h1 <;> subst h1 <;>
      exact absurd h (by decide)
  obtain ⟨fb, hch⟩ : ∃ fb, checkerFor k gf ans expected = some (false, fb) := by
    cases k with
    | text_comprehension =>
      refine ⟨.providePrompt, ?_⟩
      show some (check_comprehension_answer ans expected) = _
      unfold check_comprehension_answer
      rw [if_pos h]
    | gap_filling =>
      refine ⟨.providePrompt, ?_⟩
      show some (check_gap_filling_answer ans expected) = _
      unfold check_gap_filling_answer
      rw [if_pos h]
    | sentence_formation =>
      refine ⟨.providePrompt, ?_⟩
      show check_sentence_answer ans expected gf = _
      unfold check_sentence_answer
      rw [if_pos h]
    | paragraph_writing =>
      refine ⟨.providePrompt, ?_⟩
      show some (check_writing_answer ans expected gf) = _
      unfold check_writing_answer
      rw [if_pos h]
    | pronunciation =>
      refine ⟨.pronunciationKeep, ?_⟩
      show some (check_pronunciation_answer ans expected) = _
      unfold check_pronunciation_answer
      rw [h]
      decide
  refine ⟨fb, hch, ?_⟩
  unfold handle_exercise_answer
  rw [if_neg (show ¬(navigationButtons.contains ans = true) by
    simp only [hnav]; exact Bool.false_ne_true)]
  rw [hch]
  simp

/-- C2 amended witness: a whitespace-only gap-filling submission from
fresh counters — rejected as not correct, yet counted as completed. -/
theorem empty_answer_rejected_but_counted_witness :
    ∃ fb, checkerFor .gap_filling "" " " ["have"] = some (false, fb) ∧
      handle_exercise_answer (checkerFor .gap_filling "") " " ["have"] ⟨0, 0⟩ =
        some (⟨0 + 1, 0⟩, false, fb) :=
  empty_answer_rejected_but_counted .gap_filling "" " " ["have"] ⟨0, 0⟩ (by decide)

/-- C8 amended: whenever the `level` string contains at least one
non-whitespace character (so that the level key `level.split()[0]`
exists), the offline generators always succeed, and when the key has no
pool of its own the item is drawn from the B1 bank. -/
theorem offline_pool_level_fallback :
    ∀ (level : String) (choice : Nat) (key : String) (rest : List String),
      pySplitWs level = key :: rest →
      (∃ e, generate_gap_filling level choice = some e) ∧
      (∃ r, generate_reading_comprehension level choice = some r) ∧
      (gap_filling_exercises.lookup key = none →
        ∃ e, generate_gap_filling level choice = some e ∧ e ∈ gap_filling_bank_B1) ∧
      (reading_exercises.lookup key = none →
        ∃ r, generate_reading_comprehension level choice = some r ∧ r ∈ reading_bank_B1) := by
  intro level choice key rest hsplit
  refine ⟨?_, ?_, ?_, ?_⟩
  · unfold generate_gap_filling
    rw [hsplit]
    exact ⟨_, rfl⟩
  · unfold generate_reading_comprehension
    rw [hsplit]
    exact ⟨_, rfl⟩
  · intro hlk
    have hgen : generate_gap_filling level choice =
        some (gap_filling_bank_B1.getD (choice % gap_filling_bank_B1.length) ⟨"", []⟩) := by
      unfold generate_gap_filling
      rw [hsplit]
      show some (((gap_filling_exercises.lookup key).getD gap_filling_bank_B1).getD
        (choice % ((gap_filling_exercises.lookup key).getD gap_filling_bank_B1).length)
        ⟨"", []⟩) = _
      rw [hlk]
      rfl
    exact ⟨_, hgen, getD_mod_mem _ _ _ (by decide)⟩
  · intro hlk
    have hgen : generate_reading_comprehension level choice =
        some (reading_bank_B1.getD (choice % reading_bank_B1.length) ⟨"", "", []⟩) := by
      unfold generate_reading_comprehension
      rw [hsplit]
      show some (((reading_exercises.lookup key).getD reading_bank_B1).getD
        (choice % ((reading_exercises.lookup key).getD reading_bank_B1).length)
        ⟨"", "", []⟩) = _
      rw [hlk]
      rfl
    exact ⟨_, hgen, getD_mod_mem _ _ _ (by decide)⟩

/-- C8 amended witness: the unknown level string `"Z9 (Custom)"` has no
pool of its own, and both offline generators draw from the B1 banks. -/
theorem offline_pool_level_fallback_witness :
    (∃ e, generate_gap_filling "Z9 (Custom)" 0 = some e ∧ e ∈ gap_filling_bank_B1) ∧
    (∃ r, generate_reading_comprehension "Z9 (Custom)" 0 = some r ∧ r ∈ reading_bank_B1) := by
  have h := offline_pool_level_fallback "Z9 (Custom)" 0 "Z9" ["(Custom)"] (by decide)
  exact ⟨h.2.2.1 (by decide), h.2.2.2 (by decide)⟩

/-- C6: for a non-empty answer and non-empty expected list, the
sentence-formation checker is correct exactly when every required word
(cleaned, lowercased, length above 2) of the first expected sentence
occurs among the cleaned words of the answer, independent of word order;
the worked examples: `"a cat I have"` passes against
`["I have a cat"]` and `"I have a dog"` fails with `"cat"` reported
missing. -/
theorem sentence_formation_checker_spec :
    ∀ (ans first : String) (rest : List String) (gf : String),
      pyStrip ans ≠ "" →
      (((check_sentence_answer ans (first :: rest) gf).map Prod.fst = some true ↔
          ∀ w ∈ sentence_required_words first, w ∈ sentence_user_words ans) ∧
        (check_sentence_answer "a cat I have" ["I have a cat"] gf).map Prod.fst = some true ∧
        check_sentence_answer "I have a dog" ["I have a cat"] gf =
          some (false, .missingWords ["cat"] gf)) := by
  intro ans first rest gf h
  have hred : check_sentence_answer ans (first :: rest) gf =
      (if ((sentence_required_words first).filter
          (fun w => !((sentence_user_words ans).contains w))).isEmpty = true
        then some (true, Feedback.sentenceCorrect gf)
        else some (false, Feedback.missingWords ((sentence_required_words first).filter
          (fun w => !((sentence_user_words ans).contains w))) gf)) := by
    unfold check_sentence_answer
    rw [if_neg h]
  refine ⟨?_, rfl, rfl⟩
  rw [hred]
  by_cases hm : ((sentence_required_words first).filter
      (fun w => !((sentence_user_words ans).contains w))).isEmpty = true
  · rw [if_pos hm]
    have hemp : (sentence_required_words first).filter
        (fun w => !((sentence_user_words ans).contains w)) = [] :=
      List.isEmpty_iff.mp hm
    constructor
    · intro _ w hw
      by_contra hnot
      have hmem : w ∈ (sentence_required_words first).filter
          (fun w => !((sentence_user_words ans).contains w)) := by
        apply List.mem_filter.mpr
        refine ⟨hw, ?_⟩
        simpa using hnot
      rw [hemp] at hmem
      exact List.not_mem_nil _ hmem
    · intro _
      rfl
  · rw [if_neg hm]
    constructor
    · intro habs
      exact absurd habs (by simp)
    · intro hforall
      exfalso
      apply hm
      have hnil : (sentence_required_words first).filter
          (fun w => !((sentence_user_words ans).contains w)) = [] := by
        apply List.filter_eq_nil_iff.mpr
        intro w hw
        simp [hforall w hw]
      rw [hnil]
      rfl

/-- C6 witness: the universal characterization instantiated at the
order-scrambled worked example. -/
theorem sentence_formation_checker_spec_witness :
    (check_sentence_answer "a cat I have" ["I have a cat"] "").map Prod.fst = some true :=
  (sentence_formation_checker_spec "a cat I have" "I have a cat" [] "" (by decide)).2.1

theorem pyFindAux_eq_firstIdx (c : Char) :
    ∀ (l : List Char) (i : Nat),
      pyFindAux c l i = (firstIdxAux (fun x => x == c) l).map (· + i) := by
  intro l
  induction l with
  | nil => intro i; simp [pyFindAux, firstIdxAux]
  | cons x xs ih =>
    intro i
    by_cases hx : x = c
    · simp [pyFindAux, firstIdxAux, hx]
    · have hbe : ¬((x == c) = true) := by simp [hx]
      rw [pyFindAux, if_neg hx, ih (i + 1), firstIdxAux, if_neg hbe]
      cases firstIdxAux (fun x => x == c) xs with
      | none => simp
      | some m => simp; omega

/-- C7: the parsing stage of `generate_json` coincides, for every
abstract `json.loads` behaviour and every raw model output string, with
the spec-side two-stage policy: strict parse first; on failure take the
substring from the first opening to the last closing brace, strip
trailing commas before closing braces and brackets, and retry; `None` on
second failure or when no brace pair exists.  Both sides are total, so no
parse failure can escape as an exception. -/
theorem generate_json_parsing_policy :
    ∀ (α : Type) (loads : String → Option α) (text : String),
      generate_json_from_text loads text = generate_json_spec loads text := by
  intro α loads text
  unfold generate_json_from_text generate_json_spec extract_json_candidate
  cases hl : loads text with
  | some v => rfl
  | none =>
    cases hf : firstIdxAux (fun c => c == Char.ofNat 123) text.toList with
    | none =>
      have hpf : pyFind text (Char.ofNat 123) = -1 := by
        unfold pyFind
        rw [pyFindAux_eq_firstIdx, hf]
        rfl
      simp [hpf]
    | some a =>
      cases hr : firstIdxAux (fun c => c == Char.ofNat 125) text.toList.reverse with
      | none =>
        have hpr : pyRfind text (Char.ofNat 125) = -1 := by
          unfold pyRfind
          rw [pyFindAux_eq_firstIdx, hr]
          rfl
        simp [hpr]
      | some rb =>
        have hpf : pyFind text (Char.ofNat 123) = (a : Int) := by
          unfold pyFind
          rw [pyFindAux_eq_firstIdx, hf]
          simp
        have hpr : pyRfind text (Char.ofNat 125) =
            ((text.toList.length - 1 - rb : Nat) : Int) := by
          unfold pyRfind
          rw [pyFindAux_eq_firstIdx, hr]
          simp
        have h1 : ((a : Int) != -1) = true := by
          simp [bne]
        have h2 : ((((text.toList.length - 1 - rb : Nat)) : Int) != -1) = true := by
          simp [bne]
        simp [hpf, hpr, h1, h2, pySlice]

theorem bestRunK_bounds (s : List Char) (i : Nat) :
    ∀ (m k : Nat), bestRunK s i m = some k → 3 ≤ k ∧ k ≤ m := by
  intro m
  induction m with
  | zero => intro k h; simp [bestRunK] at h
  | succ n ih =>
    intro k h
    rw [bestRunK] at h
    by_cases hc : (decide (n + 1 ≥ 3) && boundaryAt s (i + 1 + (n + 1))) = true
    · rw [if_pos hc] at h
      cases h
      have h3 := of_decide_eq_true ((Bool.and_eq_true _ _).mp hc).1
      omega
    · rw [if_neg hc] at h
      have := ih k h
      omega

theorem runLen_le_length : ∀ (l : List Char), runLen l ≤ l.length := by
  intro l
  induction l with
  | nil => simp [runLen]
  | cons c cs ih =>
    rw [runLen]
    split
    · simpa using ih
    · simp

theorem tokenMatchAt_bounds (s : List Char) (i e : Nat) :
    tokenMatchAt s i = some e → i + 4 ≤ e ∧ e ≤ s.length := by
  intro h
  rw [tokenMatchAt] at h
  by_cases hc : (boundaryAt s i && (s.getD i (Char.ofNat 0)).isAlpha) = true
  · rw [if_pos hc] at h
    cases hb : bestRunK s i (runLen (s.drop (i + 1))) with
    | none => rw [hb] at h; simp at h
    | some k =>
      rw [hb] at h
      simp at h
      have hbk := bestRunK_bounds s i _ k hb
      have hrl := runLen_le_length (s.drop (i + 1))
      rw [List.length_drop] at hrl
      omega
  · rw [if_neg hc] at h
    simp at h

theorem scanTokens_length_gt (s : List Char) :
    ∀ (fuel pos : Nat) (t : String), t ∈ scanTokens s fuel pos → 3 < t.length := by
  intro fuel
  induction fuel with
  | zero => intro pos t h; simp [scanTokens] at h
  | succ n ih =>
    intro pos t h
    rw [scanTokens] at h
    by_cases hp : pos < s.length
    · rw [if_pos hp] at h
      cases hm : tokenMatchAt s pos with
      | none => rw [hm] at h; exact ih _ t h
      | some e =>
        rw [hm] at h
        rcases List.mem_cons.mp h with he | hrest
        · subst he
          have hb := tokenMatchAt_bounds s pos e hm
          have hlen : (String.mk ((s.drop pos).take (e - pos))).length =
              ((s.drop pos).take (e - pos)).length := rfl
          rw [hlen, List.length_take, List.length_drop]
          omega
        · exact ih _ t hrest
    · rw [if_neg hp] at h
      simp at h

theorem add_words_aux_vocab_mono :
    ∀ (ws vocab new : List String) (w : String),
      w ∈ vocab → w ∈ (add_words_aux vocab new ws).1 := by
  intro ws
  induction ws with
  | nil => intro vocab new w hw; exact hw
  | cons x xs ih =>
    intro vocab new w hw
    simp only [add_words_aux]
    by_cases hc : (!(common_words.contains (pyStripApos x)) &&
        !(vocab.contains (pyStripApos x))) = true
    · rw [if_pos hc]
      exact ih _ _ w (List.mem_append_left _ hw)
    · rw [if_neg hc]
      exact ih _ _ w hw

theorem add_words_aux_new_spec :
    ∀ (ws vocab new : List String) (w : String),
      w ∈ (add_words_aux vocab new ws).2 →
        w ∈ new ∨ (w ∉ vocab ∧ w ∉ common_words ∧ w ∈ (add_words_aux vocab new ws).1) := by
  intro ws
  induction ws with
  | nil => intro vocab new w hw; exact Or.inl hw
  | cons x xs ih =>
    intro vocab new w hw
    simp only [add_words_aux] at hw ⊢
    by_cases hc : (!(common_words.contains (pyStripApos x)) &&
        !(vocab.contains (pyStripApos x))) = true
    · rw [if_pos hc] at hw ⊢
      rcases ih _ _ w hw with hnew | ⟨hnv, hnc, hin⟩
      · rcases List.mem_append.mp hnew with hn | hn
        · exact Or.inl hn
        · have hwx : w = pyStripApos x := by simpa using hn
          subst hwx
          have hcp := (Bool.and_eq_true _ _).mp hc
          refine Or.inr ⟨?_, ?_, ?_⟩
          · intro hmem
            have hct : vocab.contains (pyStripApos x) = true := by simpa using hmem
            have h2 := hcp.2
            rw [hct] at h2
            simp at h2
          · intro hmem
            have hct : common_words.contains (pyStripApos x) = true := by simpa using hmem
            have h1 := hcp.1
            rw [hct] at h1
            simp at h1
          · exact add_words_aux_vocab_mono xs _ _ _
              (List.mem_append_right _ (by simp))
      · exact Or.inr ⟨fun hm => hnv (List.mem_append_left _ hm), hnc, hin⟩
    · rw [if_neg hc] at hw ⊢
      exact ih _ _ w hw

theorem add_words_aux_eq_spec :
    ∀ (ws vocab new : List String),
      add_words_aux vocab new ws =
        ((harvest_vocabulary_spec vocab ws).1,
          new ++ (harvest_vocabulary_spec vocab ws).2) := by
  intro ws
  induction ws with
  | nil => intro vocab new; simp [add_words_aux, harvest_vocabulary_spec]
  | cons x xs ih =>
    intro vocab new
    simp only [add_words_aux, harvest_vocabulary_spec]
    by_cases hc : pyStripApos x ∈ common_words ∨ pyStripApos x ∈ vocab
    · have hcf : ¬((!(common_words.contains (pyStripApos x)) &&
          !(vocab.contains (pyStripApos x))) = true) := by
        intro hcc
        have h1 := ((Bool.and_eq_true _ _).mp hcc).1
        have h2 := ((Bool.and_eq_true _ _).mp hcc).2
        rcases hc with hm | hm
        · have hct : common_words.contains (pyStripApos x) = true := by simpa using hm
          rw [hct] at h1
          simp at h1
        · have hct : vocab.contains (pyStripApos x) = true := by simpa using hm
          rw [hct] at h2
          simp at h2
      rw [if_neg hcf, if_pos hc]
      exact ih vocab new
    · push_neg at hc
      have hct : (!(common_words.contains (pyStripApos x)) &&
          !(vocab.contains (pyStripApos x))) = true := by
        have h1 : common_words.contains (pyStripApos x) = false := by simpa using hc.1
        have h2 : vocab.contains (pyStripApos x) = false := by simpa using hc.2
        rw [h1, h2]
        rfl
      rw [if_pos hct, if_neg (by push_neg; exact hc)]
      rw [ih (vocab ++ [pyStripApos x]) (new ++ [pyStripApos x])]
      simp

/-- C9: vocabulary harvesting extracts only tokens longer than 3
characters from the lowercased text; existing vocabulary entries are
never removed; the harvest coincides exactly with the specification-side
policy — every extracted token is inserted unless stoplisted or already
present, and precisely the genuinely new words of the call are returned,
in order — so in particular the returned words are new, non-stoplisted
and present afterwards, and harvesting
`"The quick brown fox jumps"` into an empty vocabulary adds exactly
`quick`, `brown`, `jumps` (`the` and `fox` are too short). -/
theorem vocabulary_harvest_spec :
    (∀ (text : String), ∀ t ∈ vocabulary_tokens text, 3 < t.length) ∧
    add_words_to_vocabulary [] "The quick brown fox jumps" =
      (["quick", "brown", "jumps"], ["quick", "brown", "jumps"]) ∧
    (∀ (vocab : List String) (text : String) (w : String),
      w ∈ vocab → w ∈ (add_words_to_vocabulary vocab text).1) ∧
    (∀ (vocab : List String) (text : String),
      add_words_to_vocabulary vocab text =
        harvest_vocabulary_spec vocab (vocabulary_tokens text)) ∧
    (∀ (vocab : List String) (text : String) (w : String),
      w ∈ (add_words_to_vocabulary vocab text).2 →
        w ∉ vocab ∧ w ∉ common_words ∧ w ∈ (add_words_to_vocabulary vocab text).1) := by
  refine ⟨?_, by decide, ?_, ?_, ?_⟩
  · intro text t ht
    exact scanTokens_length_gt _ _ _ t ht
  · intro vocab text w hw
    exact add_words_aux_vocab_mono _ _ _ w hw
  · intro vocab text
    rw [add_words_to_vocabulary, add_words_aux_eq_spec]
    simp
  · intro vocab text w hw
    rcases add_words_aux_new_spec _ _ _ w hw with hnew | h
    · simp at hnew
    · exact h

/-- C9 witness: growth, the exact spec-side characterization, and
genuine-newness instantiated at concrete inputs. -/
theorem vocabulary_harvest_spec_witness :
    "hello" ∈ (add_words_to_vocabulary ["hello"] "greetings friend").1 ∧
    add_words_to_vocabulary [] "The quick brown fox jumps" =
      harvest_vocabulary_spec [] (vocabulary_tokens "The quick brown fox jumps") ∧
    ("brown" ∉ ([] : List String) ∧ "brown" ∉ common_words ∧
      "brown" ∈ (add_words_to_vocabulary [] "The quick brown fox jumps").1) :=
  ⟨vocabulary_harvest_spec.2.2.1 ["hello"] "greetings friend" "hello" (by decide),
   vocabulary_harvest_spec.2.2.2.1 [] "The quick brown fox jumps",
   vocabulary_harvest_spec.2.2.2.2 [] "The quick brown fox jumps" "brown" (by decide)⟩

end EnglishBot
